import Mathlib

/-! Brent001/test-redirect: the two Express relays

A shallow embedding of `src/index.js` (the `/redirect` relay built on `node-fetch`)
and `src/server.js` (the Railway relay in front of a Deno backend, built on `axios`),
followed by theorems about the handlers.

Conventions of the embedding:

* JavaScript data is a `JsVal`; objects are association lists in insertion order.
* The upstream (`fetch`, `axios`) is a function from the outbound request to its
  outcome (resolved response or rejected error); a handler returns the list of
  outbound requests it issued together with the final state of `res`.
* `cors(...)`, `express.json()` and `console.log` are not modelled; `req.query`,
  `req.ip`, `req.body` and the request headers are inputs as Express presents them.
-/

set_option autoImplicit false

namespace TestRedirect

/-! ## JavaScript values -/

/-- The JavaScript data the handlers touch. No constructor is callable: functions
never occur as data in `req.query`, in JSON bodies or in response fields. -/
inductive JsVal where
  | undefined
  | null
  | bool (b : Bool)
  | num (n : Int)
  | str (s : String)
  | arr (xs : List JsVal)
  | obj (kvs : List (String × JsVal))
  | stream (chunks : List String)

/-- A JavaScript object: keys with their values, in insertion order. -/
abbrev Obj := List (String × JsVal)

namespace JsVal

/-- JavaScript truthiness (`!x` is its negation). -/
def truthy : JsVal → Bool
  | undefined => false
  | null => false
  | bool b => b
  | num n => n != 0
  | str s => s != ""
  | arr _ => true
  | obj _ => true
  | stream _ => true

/-- The operator `a || b`. -/
def or (a b : JsVal) : JsVal :=
  if a.truthy then a else b

end JsVal

/-- Property read `o[k]`: `undefined` when the key is absent. -/
def Obj.get (o : Obj) (k : String) : JsVal :=
  match o.find? (fun p => p.1 == k) with
  | some p => p.2
  | none => JsVal.undefined

/-- Property write `o[k] = v`: an existing key keeps its position. -/
def Obj.set : Obj → String → JsVal → Obj
  | [], k, v => [(k, v)]
  | (k', v') :: rest, k, v =>
    if k' == k then (k', v) :: rest else (k', v') :: Obj.set rest k v

/-- Object spread `{ ...base, ...extra }`: the keys of `extra` are written onto
`base` in order, so a key of `extra` overrides the same key of `base`. -/
def Obj.spread (base extra : Obj) : Obj :=
  extra.foldl (fun o p => Obj.set o p.1 p.2) base

/-- `s.startsWith(pre)` on strings. -/
def jsStartsWith (s pre : String) : Bool :=
  pre.toList.isPrefixOf s.toList

/-- The method `s.toLowerCase()`, on ASCII letters (header names and HTTP methods). -/
def toLowerCase (s : String) : String :=
  String.mk (s.toList.map Char.toLower)

/-- Calling a value as a function, `callee(...)`, where `callee` is written `name`
in the source. None of the modelled values is callable, so the call throws
`TypeError: <name> is not a function`; the result is the error's message. -/
def jsCall (_callee : JsVal) (name : String) : Except String JsVal :=
  Except.error (name ++ " is not a function")

/-! ## Express request and response -/

/-- The inbound request as Express presents it to a handler. -/
structure Request where
  /-- Upper-case HTTP method, `req.method`. -/
  method : String
  /-- Path of the request URL, without the query string. -/
  path : String
  /-- Wildcard captures, `req.params[0]`, ... -/
  params : List String
  /-- Parsed query string, `req.query`. -/
  query : Obj
  /-- Request headers, names in lower case as Node stores them. -/
  headers : List (String × String)
  /-- Caller address, `req.ip`. -/
  ip : String
  /-- Parsed body, `req.body`. -/
  body : JsVal

/-- The method `req.get(name)`: case-insensitive header lookup, `undefined` when absent. -/
def Request.get (req : Request) (name : String) : JsVal :=
  match req.headers.find? (fun p => toLowerCase p.1 == toLowerCase name) with
  | some p => JsVal.str p.2
  | none => JsVal.undefined

/-- First wildcard capture `req.params[0]`. -/
def Request.param0 (req : Request) : JsVal :=
  match req.params.head? with
  | some s => JsVal.str s
  | none => JsVal.undefined

/-- The axios response fields the handlers read. `status` is the status of an
HTTP response as received, a three-digit code. -/
structure AxiosResponse where
  status : Nat
  statusText : String
  /-- Response headers, names in lower case. -/
  headers : Obj
  data : JsVal

/-- The error object seen by a `catch` block: `error.message`, `error.code`
(`none` when undefined) and `error.response` (`none` when undefined). -/
structure CaughtError where
  message : String
  code : Option String
  response : Option AxiosResponse

/-- The `RangeError` Node throws when the head is written with a status code
outside 100..999. -/
def invalidStatusCode (n : Int) : CaughtError :=
  { message := "Invalid status code: " ++ toString n,
    code := some "ERR_HTTP_INVALID_STATUS_CODE", response := none }

/-- What was written as the response body. `statusMessage code` is the reason
phrase the `statuses` table gives for `code` (nothing when it has none), which
is what the legacy form `res.send(code)` writes. -/
inductive Sent where
  | send (v : JsVal)
  | json (v : JsVal)
  | pipe (src : JsVal)
  | ended
  | statusMessage (code : Nat)

/-- State of the Express response object `res`. -/
structure Res where
  statusCode : Nat
  headers : Obj
  sent : Option Sent

namespace Res

/-- A fresh response: status 200, nothing set, nothing written. -/
def init : Res := { statusCode := 200, headers := [], sent := none }

/-- The method `res.status(code)`. -/
def status (res : Res) (code : Nat) : Res := { res with statusCode := code }

/-- The method `res.setHeader(name, value)` and `res.set(name, value)`. -/
def setHeader (res : Res) (name : String) (value : JsVal) : Res :=
  { res with headers := Obj.set res.headers name value }

/-- The method `res.set(object)`: every field is set as a header. -/
def set (res : Res) (fields : Obj) : Res :=
  fields.foldl (fun r p => r.setHeader p.1 p.2) res

/-- The method `res.json(body)`. -/
def json (res : Res) (body : JsVal) : Res := { res with sent := some (Sent.json body) }

/-- The method `res.send(body)` of Express 4, with one argument.

A number is the legacy form `res.send(status)`: the status code becomes that
number and the body its reason phrase; writing the head then throws for a code
outside 100..999. A boolean or an object other than `null` is handed to
`res.json`; `null` is written as the empty string; a string is written as it is. -/
def send (res : Res) (body : JsVal) : Except CaughtError Res :=
  match body with
  | JsVal.num n =>
    if 100 ≤ n ∧ n ≤ 999 then
      Except.ok { res with statusCode := n.toNat, sent := some (Sent.statusMessage n.toNat) }
    else Except.error (invalidStatusCode n)
  | JsVal.bool _ => Except.ok (res.json body)
  | JsVal.arr _ => Except.ok (res.json body)
  | JsVal.obj _ => Except.ok (res.json body)
  | JsVal.stream _ => Except.ok (res.json body)
  | JsVal.null => Except.ok { res with sent := some (Sent.send (JsVal.str "")) }
  | JsVal.undefined => Except.ok { res with sent := some (Sent.send body) }
  | JsVal.str _ => Except.ok { res with sent := some (Sent.send body) }

/-- The statement `res.send(body)` outside any `try`: an error it throws leaves
the handler, and nothing is written. -/
def sendUncaught (res : Res) (body : JsVal) : Res :=
  match res.send body with
  | Except.ok written => written
  | Except.error _ => res

/-- The method `res.end()`. -/
def end_ (res : Res) : Res := { res with sent := some Sent.ended }

/-- The call `src.pipe(res)`. -/
def pipe (res : Res) (src : JsVal) : Res := { res with sent := some (Sent.pipe src) }

end Res

/-- Result of running a handler: the outbound requests it issued, in order, and
the final state of `res` (`sent = none` when nothing was written). -/
structure Handled (γ : Type) where
  calls : List γ
  res : Res

/-! ## `src/index.js` -/

/-- Outbound request of `fetch(url, { headers })`. -/
structure FetchCall where
  url : String
  headers : Obj

/-- The `node-fetch` response fields the handler reads. -/
structure FetchResponse where
  status : Nat
  /-- Response headers, names in lower case. -/
  headers : List (String × String)
  body : JsVal

/-- The method `response.headers.get(name)`: the value, or `null` when absent. -/
def FetchResponse.headersGet (r : FetchResponse) (name : String) : JsVal :=
  match r.headers.find? (fun p => p.1 == toLowerCase name) with
  | some p => JsVal.str p.2
  | none => JsVal.null

/-- Outcome of awaiting `fetch`: a response, or a rejection with `error.message`. -/
inductive FetchOutcome where
  | resolve (response : FetchResponse)
  | reject (message : String)

/-- The `headers` literal of the `fetch` call (index.js lines 15-19). -/
def redirectHeaders : Obj :=
  [("Referer", JsVal.str "https://megacloud.tv"),
   ("User-Agent", JsVal.str "Mozilla/5.0 (Windows NT 10.0; Win64; x64)"),
   ("Accept", JsVal.str "*/*")]

/-- The 400 answer of line 10. -/
def invalidUrl : Handled FetchCall :=
  { calls := [], res := (Res.init.status 400).sendUncaught (JsVal.str "Invalid URL") }

/-- The handler `app.get("/redirect", ...)` (index.js lines 6-29).

Line 9 is outside the `try`: on a truthy `url` that is not a string,
`targetUrl.startsWith` is not a function, the handler throws and writes nothing.
Inside the `try`, line 23 calls `response.status`, a number, as a function; the
`TypeError` is caught by line 26. -/
def redirectHandler (fetch : FetchCall → FetchOutcome) (req : Request) :
    Handled FetchCall :=
  let targetUrl := req.query.get "url"
  if !targetUrl.truthy then invalidUrl
  else
    match targetUrl with
    | JsVal.str s =>
      if !jsStartsWith s "http" then invalidUrl
      else
        let call : FetchCall := { url := s, headers := redirectHeaders }
        match fetch call with
        | FetchOutcome.resolve response =>
          let res1 := Res.init.setHeader "Content-Type" (response.headersGet "content-type")
          match jsCall (JsVal.num response.status) "response.status" with
          | Except.ok _ => { calls := [call], res := res1.pipe response.body }
          | Except.error message =>
            { calls := [call],
              res := (res1.status 500).sendUncaught
                (JsVal.str ("Proxy error: " ++ message)) }
        | FetchOutcome.reject message =>
          { calls := [call],
            res := (Res.init.status 500).sendUncaught
              (JsVal.str ("Proxy error: " ++ message)) }
    | _ => { calls := [], res := Res.init }

/-! ## `src/server.js` -/

/-- The axios request config: the argument of `axios(config)`, or the URL and
options of `axios.get(url, options)` with `method := "get"`. Fields the source
leaves out are `undefined`. -/
structure AxiosConfig where
  method : String
  url : String
  params : JsVal
  headers : Obj
  timeout : Nat
  responseType : JsVal
  maxRedirects : JsVal
  data : JsVal

/-- Outcome of awaiting an axios call. -/
inductive AxiosOutcome where
  | resolve (response : AxiosResponse)
  | reject (error : CaughtError)

/-- What a handler of server.js closes over: the backend base URL, the upstream
behind `axios`, and the clock read by `new Date().toISOString()`. -/
structure World where
  DENO_BACKEND_URL : String
  axios : AxiosConfig → AxiosOutcome
  now : String

/-- The `TypeError` thrown by `src.pipe(res)` when `src` is not a stream. -/
def notAFunction (name : String) : CaughtError :=
  { message := name ++ " is not a function", code := none, response := none }

/-- The handler `app.get('/health', ...)` (lines 22-28). -/
def healthHandler (w : World) (_req : Request) : Handled AxiosConfig :=
  { calls := [],
    res := Res.init.json (JsVal.obj
      [("status", JsVal.str "healthy"),
       ("timestamp", JsVal.str w.now),
       ("denoBackend", JsVal.str w.DENO_BACKEND_URL)]) }

/-- The 400 answer of lines 36-39 and 107-110. -/
def missingUrl : Handled AxiosConfig :=
  { calls := [],
    res := (Res.init.status 400).json (JsVal.obj
      [("error", JsVal.str "Missing required parameter"),
       ("message", JsVal.str "URL parameter is required")]) }

/-- The request of `axios.get` in `/m3u8-proxy` (lines 45-60). -/
def m3u8ProxyConfig (w : World) (req : Request) : AxiosConfig :=
  { method := "get",
    url := w.DENO_BACKEND_URL ++ "/m3u8-proxy",
    params := JsVal.obj
      [("url", req.query.get "url"),
       ("headers", (req.query.get "headers").or (JsVal.str "\x7b\x7d"))],
    headers :=
      [("User-Agent", (req.get "User-Agent").or (JsVal.str "Railway-Proxy/1.0")),
       ("Accept", (req.get "Accept").or (JsVal.str "application/vnd.apple.mpegurl")),
       ("Accept-Language", (req.get "Accept-Language").or (JsVal.str "en-US,en;q=0.9")),
       ("X-Forwarded-For", JsVal.str req.ip),
       ("X-Real-IP", JsVal.str req.ip),
       ("X-Railway-Proxy", JsVal.str "true")],
    timeout := 45000,
    responseType := JsVal.undefined,
    maxRedirects := JsVal.num 5,
    data := JsVal.undefined }

/-- The `catch` block of `/m3u8-proxy` (lines 77-98). -/
def m3u8ProxyCatch (req : Request) (res : Res) (error : CaughtError) : Res :=
  match error.response with
  | some response =>
    (res.status response.status).json (JsVal.obj
      [("error", JsVal.str "M3U8 proxy failed"),
       ("status", JsVal.num response.status),
       ("message", (JsVal.str response.statusText).or
          (JsVal.str "Failed to proxy M3U8 request")),
       ("url", req.query.get "url")])
  | none =>
    if error.code = some "ECONNABORTED" then
      (res.status 408).json (JsVal.obj
        [("error", JsVal.str "Request timeout"),
         ("message", JsVal.str "M3U8 proxy request timed out")])
    else
      (res.status 500).json (JsVal.obj
        [("error", JsVal.str "M3U8 proxy error"),
         ("message", JsVal.str error.message)])

/-- The handler `app.get('/m3u8-proxy', ...)` (lines 31-99). -/
def m3u8ProxyHandler (w : World) (req : Request) : Handled AxiosConfig :=
  let url := req.query.get "url"
  if !url.truthy then missingUrl
  else
    let config := m3u8ProxyConfig w req
    match w.axios config with
    | AxiosOutcome.resolve response =>
      let res1 := Res.init.set
        [("Content-Type", JsVal.str "application/vnd.apple.mpegurl"),
         ("Access-Control-Allow-Origin", JsVal.str "*"),
         ("Access-Control-Allow-Methods", JsVal.str "GET, OPTIONS"),
         ("Access-Control-Allow-Headers",
            JsVal.str "Content-Type, Authorization, X-Requested-With"),
         ("Access-Control-Expose-Headers", JsVal.str "Content-Length, Content-Type"),
         ("Cache-Control", JsVal.str "no-cache, no-store, must-revalidate"),
         ("Pragma", JsVal.str "no-cache"),
         ("Expires", JsVal.str "0")]
      match res1.send response.data with
      | Except.ok written => { calls := [config], res := written }
      | Except.error thrown => { calls := [config], res := m3u8ProxyCatch req res1 thrown }
    | AxiosOutcome.reject error =>
      { calls := [config], res := m3u8ProxyCatch req Res.init error }

/-- The request of `axios.get` in `/segment` (lines 116-133). -/
def segmentConfig (w : World) (req : Request) : AxiosConfig :=
  { method := "get",
    url := w.DENO_BACKEND_URL ++ "/segment",
    params := JsVal.obj
      [("url", req.query.get "url"),
       ("headers", (req.query.get "headers").or (JsVal.str "\x7b\x7d"))],
    headers :=
      [("User-Agent", (req.get "User-Agent").or (JsVal.str "Railway-Proxy/1.0")),
       ("Accept", (req.get "Accept").or (JsVal.str "*/*")),
       ("Accept-Encoding", (req.get "Accept-Encoding").or (JsVal.str "identity")),
       ("Range", req.get "Range"),
       ("X-Forwarded-For", JsVal.str req.ip),
       ("X-Real-IP", JsVal.str req.ip),
       ("X-Railway-Proxy", JsVal.str "true")],
    timeout := 60000,
    responseType := JsVal.str "stream",
    maxRedirects := JsVal.num 5,
    data := JsVal.undefined }

/-- The `catch` block of `/segment` (lines 160-181). -/
def segmentCatch (req : Request) (res : Res) (error : CaughtError) : Res :=
  match error.response with
  | some response =>
    (res.status response.status).json (JsVal.obj
      [("error", JsVal.str "Segment request failed"),
       ("status", JsVal.num response.status),
       ("message", (JsVal.str response.statusText).or (JsVal.str "Failed to fetch segment")),
       ("url", req.query.get "url")])
  | none =>
    if error.code = some "ECONNABORTED" then
      (res.status 408).json (JsVal.obj
        [("error", JsVal.str "Segment timeout"),
         ("message", JsVal.str "Segment request timed out")])
    else
      (res.status 500).json (JsVal.obj
        [("error", JsVal.str "Segment proxy error"),
         ("message", JsVal.str error.message)])

/-- The `responseHeaders` object of `/segment` (lines 136-152). -/
def segmentResponseHeaders (response : AxiosResponse) : Obj :=
  let contentType := (response.headers.get "content-type").or (JsVal.str "video/mp2t")
  let contentLength := response.headers.get "content-length"
  let acceptRanges := response.headers.get "accept-ranges"
  let contentRange := response.headers.get "content-range"
  let h0 : Obj :=
    [("Content-Type", contentType),
     ("Access-Control-Allow-Origin", JsVal.str "*"),
     ("Access-Control-Allow-Methods", JsVal.str "GET, OPTIONS"),
     ("Access-Control-Allow-Headers", JsVal.str "Content-Type, Range, X-Requested-With"),
     ("Access-Control-Expose-Headers",
        JsVal.str "Content-Length, Content-Range, Accept-Ranges"),
     ("Cache-Control", JsVal.str "public, max-age=3600")]
  let h1 := if contentLength.truthy then Obj.set h0 "Content-Length" contentLength else h0
  let h2 := if acceptRanges.truthy then Obj.set h1 "Accept-Ranges" acceptRanges else h1
  if contentRange.truthy then Obj.set h2 "Content-Range" contentRange else h2

/-- The handler `app.get('/segment', ...)` (lines 102-182). -/
def segmentHandler (w : World) (req : Request) : Handled AxiosConfig :=
  let url := req.query.get "url"
  if !url.truthy then missingUrl
  else
    let config := segmentConfig w req
    match w.axios config with
    | AxiosOutcome.resolve response =>
      let res1 := (Res.init.set (segmentResponseHeaders response)).status response.status
      match response.data with
      | JsVal.stream _ => { calls := [config], res := res1.pipe response.data }
      | _ =>
        { calls := [config],
          res := segmentCatch req res1 (notAFunction "response.data.pipe") }
    | AxiosOutcome.reject error =>
      { calls := [config], res := segmentCatch req Res.init error }

/-- The request of `axios.get` in `/proxy/*` (lines 193-208); `targetUrl` is
`req.params[0]` and `queryParams` is `req.query`. -/
def proxyConfig (w : World) (req : Request) : AxiosConfig :=
  let targetUrl := req.param0
  let queryParams := req.query
  { method := "get",
    url := w.DENO_BACKEND_URL ++ "/proxy",
    params := JsVal.obj (Obj.spread [("url", targetUrl)] queryParams),
    headers :=
      [("User-Agent", (req.get "User-Agent").or (JsVal.str "Railway-Proxy/1.0")),
       ("Accept", (req.get "Accept").or (JsVal.str "*/*")),
       ("Accept-Language", (req.get "Accept-Language").or (JsVal.str "en-US,en;q=0.9")),
       ("X-Forwarded-For", JsVal.str req.ip),
       ("X-Real-IP", JsVal.str req.ip),
       ("X-Railway-Proxy", JsVal.str "true")],
    timeout := 30000,
    responseType := JsVal.str "stream",
    maxRedirects := JsVal.undefined,
    data := JsVal.undefined }

/-- The `catch` block of `/proxy/*` (lines 225-245). -/
def proxyCatch (res : Res) (error : CaughtError) : Res :=
  match error.response with
  | some response =>
    (res.status response.status).json (JsVal.obj
      [("error", JsVal.str "Proxy request failed"),
       ("status", JsVal.num response.status),
       ("message", JsVal.str response.statusText)])
  | none =>
    if error.code = some "ECONNABORTED" then
      (res.status 408).json (JsVal.obj
        [("error", JsVal.str "Request timeout"),
         ("message", JsVal.str "The request to the backend server timed out")])
    else
      (res.status 500).json (JsVal.obj
        [("error", JsVal.str "Internal proxy error"),
         ("message", JsVal.str error.message)])

/-- The handler `app.get('/proxy/*', ...)` (lines 185-246). -/
def proxyHandler (w : World) (req : Request) : Handled AxiosConfig :=
  let config := proxyConfig w req
  match w.axios config with
  | AxiosOutcome.resolve response =>
    let contentType :=
      (response.headers.get "content-type").or (JsVal.str "application/octet-stream")
    let res1 := Res.init.set
      [("Content-Type", contentType),
       ("Access-Control-Allow-Origin", JsVal.str "*"),
       ("Access-Control-Allow-Methods", JsVal.str "GET, POST, OPTIONS"),
       ("Access-Control-Allow-Headers", JsVal.str "Content-Type, Authorization"),
       ("Cache-Control", (response.headers.get "cache-control").or (JsVal.str "no-cache")),
       ("Content-Length", response.headers.get "content-length")]
    match response.data with
    | JsVal.stream _ => { calls := [config], res := res1.pipe response.data }
    | _ => { calls := [config], res := proxyCatch res1 (notAFunction "response.data.pipe") }
  | AxiosOutcome.reject error =>
    { calls := [config], res := proxyCatch Res.init error }

/-- Template-literal interpolation of `req.params[0]`, which is a string or
`undefined`. -/
def interpolate : JsVal → String
  | JsVal.str s => s
  | _ => "undefined"

/-- The test `['post', 'put', 'patch'].includes(method)`. -/
def hasBody (method : String) : Bool :=
  ["post", "put", "patch"].contains method

/-- The `config` object of `/api/*` (lines 256-277). -/
def apiConfig (w : World) (req : Request) : AxiosConfig :=
  let targetPath := req.param0
  let method := toLowerCase req.method
  { method := method,
    url := w.DENO_BACKEND_URL ++ "/api/" ++ interpolate targetPath,
    headers :=
      [("Content-Type", (req.get "Content-Type").or (JsVal.str "application/json")),
       ("User-Agent", (req.get "User-Agent").or (JsVal.str "Railway-Proxy/1.0")),
       ("Accept", (req.get "Accept").or (JsVal.str "application/json")),
       ("X-Forwarded-For", JsVal.str req.ip),
       ("X-Real-IP", JsVal.str req.ip)],
    timeout := 30000,
    responseType := JsVal.undefined,
    maxRedirects := JsVal.undefined,
    data := if hasBody method then req.body else JsVal.undefined,
    params := if req.query.length > 0 then JsVal.obj req.query else JsVal.undefined }

/-- The `catch` block of `/api/*` (lines 283-294). -/
def apiCatch (res : Res) (error : CaughtError) : Res :=
  match error.response with
  | some response => (res.status response.status).json response.data
  | none =>
    (res.status 500).json (JsVal.obj
      [("error", JsVal.str "Internal proxy error"),
       ("message", JsVal.str error.message)])

/-- The handler `app.all('/api/*', ...)` (lines 249-295). -/
def apiHandler (w : World) (req : Request) : Handled AxiosConfig :=
  let config := apiConfig w req
  match w.axios config with
  | AxiosOutcome.resolve response =>
    { calls := [config], res := (Res.init.status response.status).json response.data }
  | AxiosOutcome.reject error =>
    { calls := [config], res := apiCatch Res.init error }

/-- The local `targetPath` of the catch-all, `req.params[0] || ''` (line 300). -/
def catchAllTargetPath (req : Request) : JsVal :=
  req.param0.or (JsVal.str "")

/-- The `config` object of `/*` (lines 310-331). -/
def catchAllConfig (w : World) (req : Request) : AxiosConfig :=
  let targetPath := catchAllTargetPath req
  let method := toLowerCase req.method
  { method := method,
    url := w.DENO_BACKEND_URL ++ "/" ++ interpolate targetPath,
    headers :=
      [("Content-Type", (req.get "Content-Type").or (JsVal.str "application/json")),
       ("User-Agent", (req.get "User-Agent").or (JsVal.str "Railway-Proxy/1.0")),
       ("Accept", (req.get "Accept").or (JsVal.str "*/*")),
       ("X-Forwarded-For", JsVal.str req.ip),
       ("X-Real-IP", JsVal.str req.ip)],
    timeout := 30000,
    responseType := JsVal.undefined,
    maxRedirects := JsVal.undefined,
    data := if hasBody method then req.body else JsVal.undefined,
    params := if req.query.length > 0 then JsVal.obj req.query else JsVal.undefined }

/-- The `catch` block of `/*` (lines 342-353). The `res.send` of line 346 is not
inside a `try`: when it throws, nothing is written. -/
def catchAllCatch (res : Res) (error : CaughtError) : Res :=
  match error.response with
  | some response => (res.status response.status).sendUncaught response.data
  | none =>
    (res.status 500).json (JsVal.obj
      [("error", JsVal.str "Internal proxy error"),
       ("message", JsVal.str error.message)])

/-- The test `targetPath === 'favicon.ico'` (line 304). -/
def isFavicon (req : Request) : Bool :=
  match catchAllTargetPath req with
  | JsVal.str s => s == "favicon.ico"
  | _ => false

/-- The handler `app.all('/*', ...)` (lines 298-354). -/
def catchAllHandler (w : World) (req : Request) : Handled AxiosConfig :=
  if isFavicon req then { calls := [], res := (Res.init.status 404).end_ }
  else
    let config := catchAllConfig w req
    match w.axios config with
    | AxiosOutcome.resolve response =>
      let res1 :=
        if (response.headers.get "content-type").truthy then
          Res.init.setHeader "Content-Type" (response.headers.get "content-type")
        else Res.init
      match (res1.status response.status).send response.data with
      | Except.ok written => { calls := [config], res := written }
      | Except.error thrown => { calls := [config], res := catchAllCatch res1 thrown }
    | AxiosOutcome.reject error =>
      { calls := [config], res := catchAllCatch Res.init error }

/-! ### Routing -/

/-- The handlers of server.js, in declaration order. -/
inductive HandlerId where
  | health
  | m3u8Proxy
  | segment
  | proxy
  | api
  | catchAll
  deriving DecidableEq, Repr

/-- How a route was registered: `app.get` or `app.all`. -/
inductive Verb where
  | get
  | all
  deriving DecidableEq, Repr

/-- One `app.get(path, handler)` or `app.all(path, handler)` registration. -/
structure Route where
  verb : Verb
  path : String
  handler : HandlerId

/-- The route table of server.js, in declaration order (lines 22, 31, 102, 185,
249, 298). -/
def routes : List Route :=
  [{ verb := Verb.get, path := "/health", handler := HandlerId.health },
   { verb := Verb.get, path := "/m3u8-proxy", handler := HandlerId.m3u8Proxy },
   { verb := Verb.get, path := "/segment", handler := HandlerId.segment },
   { verb := Verb.get, path := "/proxy/*", handler := HandlerId.proxy },
   { verb := Verb.all, path := "/api/*", handler := HandlerId.api },
   { verb := Verb.all, path := "/*", handler := HandlerId.catchAll }]

/-- Whether a route answers a method: `app.all` answers every method, `app.get`
answers GET and, as Express does for a route without its own HEAD handler, HEAD. -/
def Verb.handles : Verb → String → Bool
  | Verb.all, _ => true
  | Verb.get, method => method == "GET" || method == "HEAD"

/-- Express 4 path matching for the two pattern shapes of server.js, on
characters: matching ignores case and allows one trailing slash; a pattern
ending in `*` matches every path that starts with what precedes the `*` and
captures the remainder as `req.params[0]`. Paths are taken percent-decoded. -/
def matchChars (pattern path : List Char) : Option (List String) :=
  match pattern.getLast? with
  | some '*' =>
    let pre := pattern.dropLast
    if pre.isPrefixOf (path.map Char.toLower) then
      some [String.mk (path.drop pre.length)]
    else none
  | _ =>
    let lower := path.map Char.toLower
    if lower == pattern || lower == pattern ++ ['/'] then some [] else none

/-- Path matching on strings. -/
def matchPath (pattern path : String) : Option (List String) :=
  matchChars pattern.toList path.toList

/-- Whether a route matches a request, and with which captures. -/
def Route.matches (r : Route) (req : Request) : Option (List String) :=
  if r.verb.handles req.method then matchPath r.path req.path else none

/-- First matching route of a table, tried in order, with its captures. -/
def dispatchIn : List Route → Request → Option (HandlerId × List String)
  | [], _ => none
  | r :: rest, req =>
    match r.matches req with
    | some ps => some (r.handler, ps)
    | none => dispatchIn rest req

/-- First matching route of server.js. -/
def dispatch (req : Request) : Option (HandlerId × List String) :=
  dispatchIn routes req

/-- The handler behind an id. -/
def runHandler : HandlerId → World → Request → Handled AxiosConfig
  | HandlerId.health => healthHandler
  | HandlerId.m3u8Proxy => m3u8ProxyHandler
  | HandlerId.segment => segmentHandler
  | HandlerId.proxy => proxyHandler
  | HandlerId.api => apiHandler
  | HandlerId.catchAll => catchAllHandler

/-- The application: the first matching route handles the request, with the
captures as `req.params`; without a match Express answers 404 itself. -/
def server (w : World) (req : Request) : Handled AxiosConfig :=
  match dispatch req with
  | some (h, ps) => runHandler h w { req with params := ps }
  | none => { calls := [], res := (Res.init.status 404).end_ }

/-- The response an upstream outcome carries, if any: the resolved response, or
the `error.response` attached to a rejection. -/
def AxiosOutcome.carriedResponse : AxiosOutcome → Option AxiosResponse
  | AxiosOutcome.resolve response => some response
  | AxiosOutcome.reject error => error.response

/-! ## Concrete inputs used by the closed theorems -/

/-- A request with the given method, path, query and headers from 203.0.113.7. -/
def mkRequest (method path : String) (query : Obj) (headers : List (String × String)) :
    Request :=
  { method := method, path := path, params := [], query := query, headers := headers,
    ip := "203.0.113.7", body := JsVal.undefined }

/-- An upstream behind `fetch` that answers 200 with a video body. -/
def fetchOk : FetchCall → FetchOutcome := fun _ =>
  FetchOutcome.resolve
    { status := 200, headers := [("content-type", "video/mp4")],
      body := JsVal.stream ["chunk"] }

/-- A backend that answers every call with the given response. -/
def worldResolving (response : AxiosResponse) : World :=
  { DENO_BACKEND_URL := "https://your-deno-app.deno.dev",
    axios := fun _ => AxiosOutcome.resolve response,
    now := "2024-01-01T00:00:00.000Z" }

/-- A backend whose every call is rejected with the given error. -/
def worldRejecting (error : CaughtError) : World :=
  { DENO_BACKEND_URL := "https://your-deno-app.deno.dev",
    axios := fun _ => AxiosOutcome.reject error,
    now := "2024-01-01T00:00:00.000Z" }

/-- A 200 playlist answer. -/
def playlistOk : AxiosResponse :=
  { status := 200, statusText := "OK", headers := [], data := JsVal.str "#EXTM3U" }

/-- The axios timeout error: no `response`, code `ECONNABORTED`. -/
def timeoutError : CaughtError :=
  { message := "timeout of 30000ms exceeded", code := some "ECONNABORTED", response := none }

/-- A 404 answer with a JSON error body. -/
def notFoundJson : AxiosResponse :=
  { status := 404, statusText := "Not Found",
    headers := [("content-type", JsVal.str "application/json")],
    data := JsVal.obj [("error", JsVal.str "no such user")] }

/-- The axios error for a 404 answer: `error.response` is the answer. -/
def notFoundError : CaughtError :=
  { message := "Request failed with status code 404", code := some "ERR_BAD_REQUEST",
    response := some notFoundJson }

/-- A connection reset: no `response`, code `ECONNRESET`. -/
def resetError : CaughtError :=
  { message := "read ECONNRESET", code := some "ECONNRESET", response := none }

/-- A 200 answer whose JSON body is the number 404. -/
def numericBodyOk : AxiosResponse :=
  { status := 200, statusText := "OK",
    headers := [("content-type", JsVal.str "application/json")],
    data := JsVal.num 404 }

/-- The axios error for a 404 answer whose JSON body is the number 200. -/
def numericBodyError : CaughtError :=
  { message := "Request failed with status code 404", code := some "ERR_BAD_REQUEST",
    response := some
      { status := 404, statusText := "Not Found",
        headers := [("content-type", JsVal.str "application/json")],
        data := JsVal.num 200 } }

/-- A 200 answer whose JSON body is the number 7. -/
def invalidBodyOk : AxiosResponse :=
  { status := 200, statusText := "OK", headers := [], data := JsVal.num 7 }

/-- A 404 answer whose JSON body is the number 7. -/
def invalidBodyAnswer : AxiosResponse :=
  { status := 404, statusText := "Not Found", headers := [], data := JsVal.num 7 }

/-- The axios error for `invalidBodyAnswer`: `error.response` is the answer. -/
def invalidBodyError : CaughtError :=
  { message := "Request failed with status code 404", code := some "ERR_BAD_REQUEST",
    response := some invalidBodyAnswer }

/-! ## Basic facts -/

theorem truthy_of_startsWith_http (s : String) (h : jsStartsWith s "http" = true) :
    (JsVal.str s).truthy = true := by
  have hne : s ≠ "" := by
    rintro rfl
    revert h
    decide
  simp [JsVal.truthy, hne]

/-- Past its `url` test, `/m3u8-proxy` issues exactly its one request. -/
theorem m3u8ProxyHandler_calls (w : World) (req : Request)
    (ht : (req.query.get "url").truthy = true) :
    (m3u8ProxyHandler w req).calls = [m3u8ProxyConfig w req] := by
  cases hr : w.axios (m3u8ProxyConfig w req) with
  | resolve response =>
    simp only [m3u8ProxyHandler, ht, hr, Bool.not_true, Bool.false_eq_true, if_false]
    split <;> rfl
  | reject error => simp [m3u8ProxyHandler, ht, hr]

/-- Past its `favicon.ico` test, the catch-all issues exactly its one request. -/
theorem catchAllHandler_calls (w : World) (req : Request) (hf : isFavicon req = false) :
    (catchAllHandler w req).calls = [catchAllConfig w req] := by
  cases hr : w.axios (catchAllConfig w req) with
  | resolve response =>
    simp only [catchAllHandler, hf, hr, Bool.false_eq_true, if_false]
    split <;> rfl
  | reject error => simp [catchAllHandler, hf, hr]

theorem Obj.get_cons (p : String × JsVal) (o : Obj) (k : String) :
    Obj.get (p :: o) k = if p.1 = k then p.2 else Obj.get o k := by
  by_cases h : p.1 = k
  · simp [Obj.get, List.find?, h]
  · have hb : (p.1 == k) = false := by simpa using h
    simp [Obj.get, List.find?, hb, h]

theorem Obj.get_set (o : Obj) (k k' : String) (v : JsVal) :
    Obj.get (Obj.set o k v) k' = if k = k' then v else Obj.get o k' := by
  induction o with
  | nil =>
    rw [Obj.set, Obj.get_cons]
  | cons p rest ih =>
    obtain ⟨k₁, v₁⟩ := p
    by_cases h₁ : k₁ = k
    · subst h₁
      by_cases h₂ : k₁ = k' <;> simp [Obj.set, Obj.get_cons, h₂]
    · by_cases h₂ : k₁ = k'
      · subst h₂
        have : ¬ k = k₁ := fun h => h₁ h.symm
        simp [Obj.set, Obj.get_cons, h₁, this]
      · simp [Obj.set, Obj.get_cons, h₁, h₂, ih]

theorem Obj.get_of_not_mem (o : Obj) (k : String) (h : k ∉ o.map Prod.fst) :
    Obj.get o k = JsVal.undefined := by
  induction o with
  | nil => rfl
  | cons p rest ih =>
    simp only [List.map_cons, List.mem_cons, not_or] at h
    have : ¬ p.1 = k := fun e => h.1 e.symm
    rw [Obj.get_cons, if_neg this, ih h.2]

theorem Obj.get_spread (q base : Obj) (k : String) (hnd : (q.map Prod.fst).Nodup) :
    Obj.get (Obj.spread base q) k =
      if k ∈ q.map Prod.fst then Obj.get q k else Obj.get base k := by
  induction q generalizing base with
  | nil => simp [Obj.spread]
  | cons p rest ih =>
    simp only [List.map_cons, List.nodup_cons] at hnd
    have step : Obj.spread base (p :: rest) = Obj.spread (Obj.set base p.1 p.2) rest := rfl
    rw [step, ih _ hnd.2, Obj.get_set, Obj.get_cons]
    by_cases h₁ : p.1 = k
    · subst h₁
      simp [hnd.1]
    · have : ¬ k = p.1 := fun e => h₁ e.symm
      simp only [if_neg h₁, List.map_cons]
      by_cases hm : k ∈ rest.map Prod.fst
      · rw [if_pos hm, if_pos (List.mem_cons_of_mem _ hm)]
      · have hm' : k ∉ p.1 :: rest.map Prod.fst := by
          intro hmem
          rcases List.mem_cons.mp hmem with e | e
          · exact this e
          · exact hm e
        rw [if_neg hm, if_neg hm']

/-! ## Rejection of requests without a usable `url` -/

/-- C1: on `/redirect`, `/m3u8-proxy` and `/segment`, a request whose query has no
`url` (absent, so `undefined`, or the empty string) is answered with status 400,
and the handler issues no upstream request. -/
theorem missing_url_is_400 (fetch : FetchCall → FetchOutcome) (w : World) (req : Request)
    (h : req.query.get "url" = JsVal.undefined ∨ req.query.get "url" = JsVal.str "") :
    ((redirectHandler fetch req).res.statusCode = 400 ∧
      (redirectHandler fetch req).res.sent = some (Sent.send (JsVal.str "Invalid URL")) ∧
      (redirectHandler fetch req).calls = []) ∧
    ((m3u8ProxyHandler w req).res.statusCode = 400 ∧
      (m3u8ProxyHandler w req).res.sent.isSome = true ∧
      (m3u8ProxyHandler w req).calls = []) ∧
    ((segmentHandler w req).res.statusCode = 400 ∧
      (segmentHandler w req).res.sent.isSome = true ∧
      (segmentHandler w req).calls = []) := by
  have ht : (req.query.get "url").truthy = false := by
    rcases h with h | h <;> rw [h] <;> rfl
  refine ⟨?_, ?_, ?_⟩
  · simp [redirectHandler, ht, invalidUrl, Res.init, Res.status, Res.sendUncaught, Res.send]
  · simp [m3u8ProxyHandler, ht, missingUrl, Res.init, Res.status, Res.json]
  · simp [segmentHandler, ht, missingUrl, Res.init, Res.status, Res.json]

/-- C1 at a request with no query at all and at `?url=`. -/
theorem missing_url_is_400_witness :
    ((redirectHandler fetchOk (mkRequest "GET" "/redirect" [] [])).res.statusCode = 400 ∧
      (m3u8ProxyHandler (worldResolving playlistOk)
        (mkRequest "GET" "/redirect" [] [])).calls = []) ∧
    (segmentHandler (worldResolving playlistOk)
      (mkRequest "GET" "/segment" [("url", JsVal.str "")] [])).res.statusCode = 400 :=
  ⟨⟨(missing_url_is_400 fetchOk (worldResolving playlistOk)
        (mkRequest "GET" "/redirect" [] []) (Or.inl rfl)).1.1,
    (missing_url_is_400 fetchOk (worldResolving playlistOk)
        (mkRequest "GET" "/redirect" [] []) (Or.inl rfl)).2.1.2.2⟩,
   (missing_url_is_400 fetchOk (worldResolving playlistOk)
      (mkRequest "GET" "/segment" [("url", JsVal.str "")] []) (Or.inr rfl)).2.2.1⟩

/-- C2 fails as stated. `ftp://x` starts with neither `http://` nor `https://`,
yet `/m3u8-proxy` and `/segment` forward it to the backend (one upstream request,
and the backend's answer is relayed); `httpx` starts with neither, yet `/redirect`
reaches `fetch` and answers 500. -/
theorem scheme_check_counterexample :
    (jsStartsWith "ftp://x" "http://" = false ∧ jsStartsWith "ftp://x" "https://" = false ∧
      (m3u8ProxyHandler (worldResolving playlistOk)
        (mkRequest "GET" "/m3u8-proxy" [("url", JsVal.str "ftp://x")] [])).calls.length = 1 ∧
      (m3u8ProxyHandler (worldResolving playlistOk)
        (mkRequest "GET" "/m3u8-proxy" [("url", JsVal.str "ftp://x")] [])).res.statusCode
          = 200 ∧
      (segmentHandler (worldResolving playlistOk)
        (mkRequest "GET" "/segment" [("url", JsVal.str "ftp://x")] [])).calls.length = 1) ∧
    (jsStartsWith "httpx" "http://" = false ∧ jsStartsWith "httpx" "https://" = false ∧
      (redirectHandler fetchOk
        (mkRequest "GET" "/redirect" [("url", JsVal.str "httpx")] [])).calls.length = 1 ∧
      (redirectHandler fetchOk
        (mkRequest "GET" "/redirect" [("url", JsVal.str "httpx")] [])).res.statusCode
          = 500) := by
  decide

/-- C2 as amended. On `/redirect` a string `url` that does not start with `http`
is answered with 400 and no upstream request. `/m3u8-proxy` and `/segment` have no
scheme check: every truthy `url` is sent on, unchanged, in exactly one request to
the backend. -/
theorem scheme_check_amended (fetch : FetchCall → FetchOutcome) (w : World) (req : Request) :
    (∀ s : String, req.query.get "url" = JsVal.str s → jsStartsWith s "http" = false →
      (redirectHandler fetch req).res.statusCode = 400 ∧
      (redirectHandler fetch req).res.sent = some (Sent.send (JsVal.str "Invalid URL")) ∧
      (redirectHandler fetch req).calls = []) ∧
    ((req.query.get "url").truthy = true →
      ((m3u8ProxyHandler w req).calls = [m3u8ProxyConfig w req] ∧
        (m3u8ProxyConfig w req).params = JsVal.obj
          [("url", req.query.get "url"),
           ("headers", (req.query.get "headers").or (JsVal.str "\x7b\x7d"))]) ∧
      ((segmentHandler w req).calls = [segmentConfig w req] ∧
        (segmentConfig w req).params = JsVal.obj
          [("url", req.query.get "url"),
           ("headers", (req.query.get "headers").or (JsVal.str "\x7b\x7d"))])) := by
  refine ⟨?_, ?_⟩
  · intro s hs hp
    by_cases ht : (JsVal.str s).truthy = true
    · simp [redirectHandler, hs, ht, hp, invalidUrl, Res.init, Res.status, Res.sendUncaught, Res.send]
    · simp [redirectHandler, hs, ht, invalidUrl, Res.init, Res.status, Res.sendUncaught, Res.send]
  · intro ht
    refine ⟨⟨?_, rfl⟩, ⟨?_, rfl⟩⟩
    · exact m3u8ProxyHandler_calls w req ht
    · simp only [segmentHandler, ht]
      cases hr : w.axios (segmentConfig w req) with
      | resolve response => cases hd : response.data <;> simp [hd]
      | reject error => rfl

/-- C2 as amended, at `/redirect?url=ftp://x` and at `/segment?url=ftp://x`. -/
theorem scheme_check_amended_witness :
    (redirectHandler fetchOk
        (mkRequest "GET" "/redirect" [("url", JsVal.str "ftp://x")] [])).res.statusCode = 400 ∧
    (segmentHandler (worldResolving playlistOk)
        (mkRequest "GET" "/segment" [("url", JsVal.str "ftp://x")] [])).calls =
      [segmentConfig (worldResolving playlistOk)
        (mkRequest "GET" "/segment" [("url", JsVal.str "ftp://x")] [])] :=
  ⟨((scheme_check_amended fetchOk (worldResolving playlistOk)
        (mkRequest "GET" "/redirect" [("url", JsVal.str "ftp://x")] [])).1
        "ftp://x" rfl (by decide)).1,
   ((scheme_check_amended fetchOk (worldResolving playlistOk)
        (mkRequest "GET" "/segment" [("url", JsVal.str "ftp://x")] [])).2 (by decide)).2.1⟩

/-! ## `/redirect`: the relay of a successful fetch -/

/-- Whatever the upstream answers, an accepted `/redirect` request ends in the
`catch` block: status 500, and the upstream body is never piped. -/
theorem redirect_accepted_always_500 (fetch : FetchCall → FetchOutcome) (req : Request)
    (s : String) (hs : req.query.get "url" = JsVal.str s)
    (hp : jsStartsWith s "http" = true) :
    (redirectHandler fetch req).res.statusCode = 500 ∧
    ∀ src, (redirectHandler fetch req).res.sent ≠ some (Sent.pipe src) := by
  have ht := truthy_of_startsWith_http s hp
  simp only [redirectHandler, hs, ht, hp, jsCall]
  cases fetch { url := s, headers := redirectHeaders } <;>
    simp [Res.init, Res.status, Res.sendUncaught, Res.send, Res.setHeader]

/-- C3 fails on the code. For `/redirect?url=http://example.com/a.mp4` with an
upstream that answers 200 `video/mp4`, line 23 calls `response.status` (a number)
instead of `res.status`; the `TypeError` is caught, and the caller receives status
500 with the text `Proxy error: response.status is not a function` instead of
status 200 and the piped body. -/
theorem redirect_success_is_500 :
    (redirectHandler fetchOk
      (mkRequest "GET" "/redirect" [("url", JsVal.str "http://example.com/a.mp4")] [])).calls
        = [{ url := "http://example.com/a.mp4", headers := redirectHeaders }] ∧
    (redirectHandler fetchOk
      (mkRequest "GET" "/redirect" [("url", JsVal.str "http://example.com/a.mp4")] [])).res
        = { statusCode := 500,
            headers := [("Content-Type", JsVal.str "video/mp4")],
            sent := some (Sent.send
              (JsVal.str "Proxy error: response.status is not a function")) } :=
  ⟨rfl, rfl⟩

/-! ## Outbound headers -/

/-- C6: on `/redirect` the outbound request depends on the `url` only. Two accepted
requests (string `url` starting with `http`) with the same `url` issue the same
single outbound request, whatever their inbound headers, callers or upstreams, and
its `Referer` is the pinned `https://megacloud.tv`. -/
theorem redirect_outbound_independent (fetch₁ fetch₂ : FetchCall → FetchOutcome)
    (req₁ req₂ : Request) (s : String)
    (h₁ : req₁.query.get "url" = JsVal.str s) (h₂ : req₂.query.get "url" = JsVal.str s)
    (hp : jsStartsWith s "http" = true) :
    (redirectHandler fetch₁ req₁).calls = (redirectHandler fetch₂ req₂).calls ∧
    (redirectHandler fetch₁ req₁).calls = [{ url := s, headers := redirectHeaders }] ∧
    redirectHeaders.get "Referer" = JsVal.str "https://megacloud.tv" := by
  have ht := truthy_of_startsWith_http s hp
  have key : ∀ (fetch : FetchCall → FetchOutcome) (req : Request),
      req.query.get "url" = JsVal.str s →
      (redirectHandler fetch req).calls = [{ url := s, headers := redirectHeaders }] := by
    intro fetch req hs
    simp only [redirectHandler, hs, ht, hp, jsCall]
    cases fetch { url := s, headers := redirectHeaders } <;> simp
  exact ⟨(key fetch₁ req₁ h₁).trans (key fetch₂ req₂ h₂).symm, key fetch₁ req₁ h₁, rfl⟩

/-- C6 at two requests for the same URL, one sending its own `Referer`, against
two different upstreams. -/
theorem redirect_outbound_independent_witness :
    (redirectHandler fetchOk
      (mkRequest "GET" "/redirect" [("url", JsVal.str "http://example.com/a.mp4")]
        [("referer", "https://attacker.example")])).calls =
    (redirectHandler (fun _ => FetchOutcome.reject "ECONNRESET")
      (mkRequest "GET" "/redirect" [("url", JsVal.str "http://example.com/a.mp4")] [])).calls :=
  (redirect_outbound_independent fetchOk (fun _ => FetchOutcome.reject "ECONNRESET")
    (mkRequest "GET" "/redirect" [("url", JsVal.str "http://example.com/a.mp4")]
      [("referer", "https://attacker.example")])
    (mkRequest "GET" "/redirect" [("url", JsVal.str "http://example.com/a.mp4")] [])
    "http://example.com/a.mp4" rfl rfl (by decide)).1

/-- C7 fails as stated: the single outbound request of `/redirect` carries neither
`X-Forwarded-For` nor `X-Real-IP` (both read `undefined`), although the caller's
address is `203.0.113.7`. -/
theorem redirect_has_no_client_ip_headers :
    (mkRequest "GET" "/redirect" [("url", JsVal.str "http://example.com/a.mp4")] []).ip
      = "203.0.113.7" ∧
    (redirectHandler fetchOk
      (mkRequest "GET" "/redirect" [("url", JsVal.str "http://example.com/a.mp4")] [])).calls.map
        (fun c => (c.headers.get "X-Forwarded-For", c.headers.get "X-Real-IP"))
      = [(JsVal.undefined, JsVal.undefined)] :=
  ⟨rfl, rfl⟩

/-- The handlers of server.js issue at most the one request they build. -/
theorem calls_subset_config (w : World) (req : Request) :
    (healthHandler w req).calls = [] ∧
    (∀ c ∈ (m3u8ProxyHandler w req).calls, c = m3u8ProxyConfig w req) ∧
    (∀ c ∈ (segmentHandler w req).calls, c = segmentConfig w req) ∧
    (proxyHandler w req).calls = [proxyConfig w req] ∧
    (apiHandler w req).calls = [apiConfig w req] ∧
    (∀ c ∈ (catchAllHandler w req).calls, c = catchAllConfig w req) := by
  refine ⟨rfl, ?_, ?_, ?_, ?_, ?_⟩
  · intro c hc
    by_cases ht : (req.query.get "url").truthy = true
    · rw [m3u8ProxyHandler_calls w req ht, List.mem_singleton] at hc
      exact hc
    · simp [m3u8ProxyHandler, ht, missingUrl] at hc
  · intro c hc
    simp only [segmentHandler] at hc
    split at hc
    · simp [missingUrl] at hc
    · cases hr : w.axios (segmentConfig w req) with
      | resolve response =>
        rw [hr] at hc
        cases hd : response.data <;> simp_all
      | reject error => simp_all
  · simp only [proxyHandler]
    cases hr : w.axios (proxyConfig w req) with
    | resolve response => simp only []; split <;> rfl
    | reject error => rfl
  · simp only [apiHandler]
    cases w.axios (apiConfig w req) <;> rfl
  · intro c hc
    by_cases hf : isFavicon req = true
    · simp [catchAllHandler, hf] at hc
    · rw [catchAllHandler_calls w req (by simpa using hf), List.mem_singleton] at hc
      exact hc

/-- C7 as amended: on every handler of server.js (`/m3u8-proxy`, `/segment`,
`/proxy/*`, `/api/*`, `/*`; `/health` issues nothing), every outbound request
carries `X-Forwarded-For` and `X-Real-IP`, both equal to `req.ip`. -/
theorem server_client_ip_headers (w : World) (req : Request) (h : HandlerId)
    (c : AxiosConfig) (hc : c ∈ (runHandler h w req).calls) :
    c.headers.get "X-Forwarded-For" = JsVal.str req.ip ∧
    c.headers.get "X-Real-IP" = JsVal.str req.ip := by
  obtain ⟨h0, h1, h2, h3, h4, h5⟩ := calls_subset_config w req
  cases h <;> simp only [runHandler] at hc
  · rw [h0] at hc
    cases hc
  · rw [h1 c hc]
    exact ⟨rfl, rfl⟩
  · rw [h2 c hc]
    exact ⟨rfl, rfl⟩
  · rw [h3, List.mem_singleton] at hc
    rw [hc]
    exact ⟨rfl, rfl⟩
  · rw [h4, List.mem_singleton] at hc
    rw [hc]
    exact ⟨rfl, rfl⟩
  · rw [h5 c hc]
    exact ⟨rfl, rfl⟩

/-- C7 as amended, at `POST /api/users`: the request sent to the backend carries
the caller's address in both headers. -/
theorem server_client_ip_headers_witness :
    (apiConfig (worldResolving playlistOk) (mkRequest "POST" "/api/users" [] [])
        ∈ (runHandler HandlerId.api (worldResolving playlistOk)
            (mkRequest "POST" "/api/users" [] [])).calls) ∧
    (apiConfig (worldResolving playlistOk)
        (mkRequest "POST" "/api/users" [] [])).headers.get "X-Forwarded-For"
      = JsVal.str "203.0.113.7" ∧
    (apiConfig (worldResolving playlistOk)
        (mkRequest "POST" "/api/users" [] [])).headers.get "X-Real-IP"
      = JsVal.str "203.0.113.7" :=
  ⟨List.mem_singleton.mpr rfl,
   server_client_ip_headers (worldResolving playlistOk)
    (mkRequest "POST" "/api/users" [] []) HandlerId.api _ (List.mem_singleton.mpr rfl)⟩

/-! ## Failure mapping: timeouts -/

/-- On `/m3u8-proxy`, `/segment` and `/proxy/*` a rejected call with no `response`
and code `ECONNABORTED` is answered with status 408. -/
theorem media_routes_timeout_is_408 (w : World) (req : Request) (e : CaughtError)
    (hr : e.response = none) (hc : e.code = some "ECONNABORTED") :
    (m3u8ProxyCatch req Res.init e).statusCode = 408 ∧
    (segmentCatch req Res.init e).statusCode = 408 ∧
    (proxyCatch Res.init e).statusCode = 408 ∧
    (w.axios (proxyConfig w req) = AxiosOutcome.reject e →
      (proxyHandler w req).res.statusCode = 408) := by
  refine ⟨?_, ?_, ?_, ?_⟩
  · simp [m3u8ProxyCatch, hr, hc, Res.status, Res.json]
  · simp [segmentCatch, hr, hc, Res.status, Res.json]
  · simp [proxyCatch, hr, hc, Res.status, Res.json]
  · intro hw
    simp [proxyHandler, hw, proxyCatch, hr, hc, Res.status, Res.json]

/-- C4 fails on the code. `GET /api/users` and `GET /users` against a backend
that times out (no `response`, code `ECONNABORTED`) are answered with status 500
and the `Internal proxy error` body: the `catch` blocks of `/api/*` and `/*` have
no `ECONNABORTED` branch, unlike those of `/m3u8-proxy`, `/segment` and
`/proxy/*`, which answer 408. -/
theorem api_and_catch_all_timeout_is_500 :
    (server (worldRejecting timeoutError) (mkRequest "GET" "/api/users" [] [])).res
      = { statusCode := 500, headers := [],
          sent := some (Sent.json (JsVal.obj
            [("error", JsVal.str "Internal proxy error"),
             ("message", JsVal.str "timeout of 30000ms exceeded")])) } ∧
    (server (worldRejecting timeoutError) (mkRequest "GET" "/users" [] [])).res
      = { statusCode := 500, headers := [],
          sent := some (Sent.json (JsVal.obj
            [("error", JsVal.str "Internal proxy error"),
             ("message", JsVal.str "timeout of 30000ms exceeded")])) } ∧
    (server (worldRejecting timeoutError)
      (mkRequest "GET" "/proxy/a.mp4" [] [])).res.statusCode = 408 :=
  ⟨rfl, rfl, rfl⟩

/-! ## Pass-through of upstream answers -/

/-- On `/api/*` an upstream outcome that carries a response with status `s` and
body `b`, returned normally or attached to the thrown error, is answered with
status `s` and `res.json(b)`. -/
theorem api_passthrough (w : World) (req : Request) (r : AxiosResponse)
    (h : (w.axios (apiConfig w req)).carriedResponse = some r) :
    (apiHandler w req).res.statusCode = r.status ∧
    (apiHandler w req).res.sent = some (Sent.json r.data) := by
  simp only [apiHandler]
  cases hr : w.axios (apiConfig w req) with
  | resolve response =>
    rw [hr] at h
    simp only [AxiosOutcome.carriedResponse, Option.some.injEq] at h
    subst h
    exact ⟨rfl, rfl⟩
  | reject error =>
    rw [hr] at h
    simp only [AxiosOutcome.carriedResponse] at h
    simp [apiCatch, h, Res.status, Res.json]

/-- What `res.send(b)` does after `res.status(s)` when `b` is not a number: the
status stays `s`, and `b` is written as it is (strings), as JSON (booleans,
arrays, objects) or as the empty string (`null`). -/
theorem send_of_not_number (res : Res) (s : Nat) (b : JsVal)
    (hn : ∀ n, b ≠ JsVal.num n) :
    ∃ written, (res.status s).send b = Except.ok written ∧
      written.statusCode = s ∧ written.headers = res.headers ∧
      (written.sent = some (Sent.send b) ∨ written.sent = some (Sent.json b) ∨
        (b = JsVal.null ∧ written.sent = some (Sent.send (JsVal.str "")))) := by
  cases b with
  | num n => exact absurd rfl (hn n)
  | undefined => exact ⟨_, rfl, rfl, rfl, Or.inl rfl⟩
  | null => exact ⟨_, rfl, rfl, rfl, Or.inr (Or.inr ⟨rfl, rfl⟩)⟩
  | bool v => exact ⟨_, rfl, rfl, rfl, Or.inr (Or.inl rfl)⟩
  | str v => exact ⟨_, rfl, rfl, rfl, Or.inl rfl⟩
  | arr v => exact ⟨_, rfl, rfl, rfl, Or.inr (Or.inl rfl)⟩
  | obj v => exact ⟨_, rfl, rfl, rfl, Or.inr (Or.inl rfl)⟩
  | stream v => exact ⟨_, rfl, rfl, rfl, Or.inr (Or.inl rfl)⟩

/-- On the catch-all `/*`, for every path but `favicon.ico`, an upstream outcome
that carries a response with status `s` and a body `b` that is not a number is
answered with status `s` and with `b`, written as `res.send` writes it. -/
theorem catch_all_passthrough_non_numeric (w : World) (req : Request) (r : AxiosResponse)
    (hf : isFavicon req = false)
    (h : (w.axios (catchAllConfig w req)).carriedResponse = some r)
    (hn : ∀ n, r.data ≠ JsVal.num n) :
    (catchAllHandler w req).res.statusCode = r.status ∧
    ((catchAllHandler w req).res.sent = some (Sent.send r.data) ∨
      (catchAllHandler w req).res.sent = some (Sent.json r.data) ∨
      (r.data = JsVal.null ∧
        (catchAllHandler w req).res.sent = some (Sent.send (JsVal.str "")))) := by
  cases hr : w.axios (catchAllConfig w req) with
  | resolve response =>
    rw [hr] at h
    simp only [AxiosOutcome.carriedResponse, Option.some.injEq] at h
    subst h
    simp only [catchAllHandler, hf, hr, Bool.false_eq_true, if_false]
    obtain ⟨written, hw, hs, -, hsent⟩ := send_of_not_number
      (if (response.headers.get "content-type").truthy = true then
        Res.init.setHeader "Content-Type" (response.headers.get "content-type")
       else Res.init) response.status response.data hn
    rw [hw]
    exact ⟨hs, hsent⟩
  | reject error =>
    rw [hr] at h
    simp only [AxiosOutcome.carriedResponse] at h
    simp only [catchAllHandler, hf, hr, Bool.false_eq_true, if_false, catchAllCatch, h,
      Res.sendUncaught]
    obtain ⟨written, hw, hs, -, hsent⟩ := send_of_not_number Res.init r.status r.data hn
    rw [hw]
    exact ⟨hs, hsent⟩

/-- The pass-through at a backend answering 404 with a JSON object, which axios
throws with the response attached: `/api/users/7` and `/users/7` answer 404 with
that object as JSON. -/
theorem passthrough_of_json_error_body :
    ((apiHandler (worldRejecting notFoundError)
        (mkRequest "GET" "/api/users/7" [] [])).res.statusCode = 404 ∧
      (apiHandler (worldRejecting notFoundError)
        (mkRequest "GET" "/api/users/7" [] [])).res.sent
          = some (Sent.json (JsVal.obj [("error", JsVal.str "no such user")]))) ∧
    (catchAllHandler (worldRejecting notFoundError)
        (mkRequest "GET" "/users/7" [] [])).res.statusCode = 404 ∧
    (server (worldRejecting notFoundError) (mkRequest "GET" "/users/7" [] [])).res.sent
      = some (Sent.json (JsVal.obj [("error", JsVal.str "no such user")])) :=
  ⟨api_passthrough (worldRejecting notFoundError)
      (mkRequest "GET" "/api/users/7" [] []) notFoundJson rfl,
   (catch_all_passthrough_non_numeric (worldRejecting notFoundError)
      (mkRequest "GET" "/users/7" [] []) notFoundJson rfl rfl
      (fun _ h => JsVal.noConfusion h)).1,
   rfl⟩

/-- C5 fails on the code, on the catch-all `/*`. `res.send(data)` with a number
is the legacy status form of Express 4. `GET /users` against a backend answering
200 with the JSON body `404` is answered with status 404 and the reason phrase
of 404; against a backend answering 404 with the JSON body `200` (which axios
throws with `error.response` attached) it is answered with status 200 and the
reason phrase of 200. In both cases the caller receives neither the upstream
status nor the upstream body. On `/api/*` the same answers are passed through. -/
theorem catch_all_numeric_body_replaces_status :
    (server (worldResolving numericBodyOk) (mkRequest "GET" "/users" [] [])).res
      = { statusCode := 404,
          headers := [("Content-Type", JsVal.str "application/json")],
          sent := some (Sent.statusMessage 404) } ∧
    (server (worldRejecting numericBodyError) (mkRequest "GET" "/users" [] [])).res
      = { statusCode := 200, headers := [], sent := some (Sent.statusMessage 200) } ∧
    (server (worldRejecting numericBodyError) (mkRequest "GET" "/api/users" [] [])).res
      = { statusCode := 404, headers := [], sent := some (Sent.json (JsVal.num 200)) } :=
  ⟨rfl, rfl, rfl⟩

/-! ## Failure mapping: what holds -/

/-- A rejected upstream call is answered by the route's `catch` block applied to
the error. -/
theorem rejected_call_goes_to_catch (w : World) (req : Request) (e : CaughtError) :
    (w.axios (m3u8ProxyConfig w req) = AxiosOutcome.reject e →
      (req.query.get "url").truthy = true →
      (m3u8ProxyHandler w req).res = m3u8ProxyCatch req Res.init e) ∧
    (w.axios (segmentConfig w req) = AxiosOutcome.reject e →
      (req.query.get "url").truthy = true →
      (segmentHandler w req).res = segmentCatch req Res.init e) ∧
    (w.axios (proxyConfig w req) = AxiosOutcome.reject e →
      (proxyHandler w req).res = proxyCatch Res.init e) ∧
    (w.axios (apiConfig w req) = AxiosOutcome.reject e →
      (apiHandler w req).res = apiCatch Res.init e) ∧
    (w.axios (catchAllConfig w req) = AxiosOutcome.reject e →
      isFavicon req = false →
      (catchAllHandler w req).res = catchAllCatch Res.init e) := by
  refine ⟨?_, ?_, ?_, ?_, ?_⟩
  · intro hw ht
    simp [m3u8ProxyHandler, hw, ht]
  · intro hw ht
    simp [segmentHandler, hw, ht]
  · intro hw
    simp [proxyHandler, hw]
  · intro hw
    simp [apiHandler, hw]
  · intro hw hf
    simp [catchAllHandler, hw, hf]

/-- The `catch` blocks of `/m3u8-proxy`, `/segment`, `/proxy/*` and `/api/*`
write a response for every error; the one of `/*` does so for every error that
carries no response, or a response whose body is not a number outside 100..999. -/
theorem catch_blocks_answer (req : Request) (e : CaughtError) :
    (m3u8ProxyCatch req Res.init e).sent.isSome = true ∧
    (segmentCatch req Res.init e).sent.isSome = true ∧
    (proxyCatch Res.init e).sent.isSome = true ∧
    (apiCatch Res.init e).sent.isSome = true ∧
    ((∀ r n, e.response = some r → r.data = JsVal.num n → 100 ≤ n ∧ n ≤ 999) →
      (catchAllCatch Res.init e).sent.isSome = true) := by
  refine ⟨?_, ?_, ?_, ?_, ?_⟩
  · simp only [m3u8ProxyCatch]
    split
    · rfl
    · split <;> rfl
  · simp only [segmentCatch]
    split
    · rfl
    · split <;> rfl
  · simp only [proxyCatch]
    split
    · rfl
    · split <;> rfl
  · simp only [apiCatch]
    split <;> rfl
  · intro hvalid
    cases hr : e.response with
    | none => simp [catchAllCatch, hr, Res.status, Res.json]
    | some r =>
      simp only [catchAllCatch, hr, Res.sendUncaught]
      cases hd : r.data with
      | num n =>
        have hv := hvalid r n hr hd
        simp [Res.send, hv, Res.status]
      | undefined => rfl
      | null => rfl
      | bool v => rfl
      | str v => rfl
      | arr v => rfl
      | obj v => rfl
      | stream v => rfl

/-- On the five forwarding routes, an error that carries no `response` and whose
code is not `ECONNABORTED` is answered with status 500 and a JSON body whose
`message` field is the error's message. -/
theorem unknown_error_is_500 (req : Request) (e : CaughtError)
    (hr : e.response = none) (hc : e.code ≠ some "ECONNABORTED") :
    ((m3u8ProxyCatch req Res.init e).statusCode = 500 ∧
      (m3u8ProxyCatch req Res.init e).sent = some (Sent.json (JsVal.obj
        [("error", JsVal.str "M3U8 proxy error"), ("message", JsVal.str e.message)]))) ∧
    ((segmentCatch req Res.init e).statusCode = 500 ∧
      (segmentCatch req Res.init e).sent = some (Sent.json (JsVal.obj
        [("error", JsVal.str "Segment proxy error"), ("message", JsVal.str e.message)]))) ∧
    ((proxyCatch Res.init e).statusCode = 500 ∧
      (proxyCatch Res.init e).sent = some (Sent.json (JsVal.obj
        [("error", JsVal.str "Internal proxy error"), ("message", JsVal.str e.message)]))) ∧
    ((apiCatch Res.init e).statusCode = 500 ∧
      (apiCatch Res.init e).sent = some (Sent.json (JsVal.obj
        [("error", JsVal.str "Internal proxy error"), ("message", JsVal.str e.message)]))) ∧
    ((catchAllCatch Res.init e).statusCode = 500 ∧
      (catchAllCatch Res.init e).sent = some (Sent.json (JsVal.obj
        [("error", JsVal.str "Internal proxy error"),
         ("message", JsVal.str e.message)]))) := by
  simp [m3u8ProxyCatch, segmentCatch, proxyCatch, apiCatch, catchAllCatch, hr, hc,
    Res.status, Res.json, Res.init]

/-- A connection reset on `/segment` and on `/api/*`: status 500, and the
`message` field is the error's message. -/
theorem unknown_error_is_500_at_reset :
    (segmentCatch (mkRequest "GET" "/segment" [("url", JsVal.str "http://a/1.ts")] [])
        Res.init resetError).statusCode = 500 ∧
    (apiCatch Res.init resetError).sent = some (Sent.json (JsVal.obj
        [("error", JsVal.str "Internal proxy error"),
         ("message", JsVal.str "read ECONNRESET")])) :=
  ⟨(unknown_error_is_500
      (mkRequest "GET" "/segment" [("url", JsVal.str "http://a/1.ts")] [])
      resetError rfl (by decide)).2.1.1,
   (unknown_error_is_500
      (mkRequest "GET" "/segment" [("url", JsVal.str "http://a/1.ts")] [])
      resetError rfl (by decide)).2.2.2.1.2⟩

/-- C10 fails on the code, on the catch-all `/*`. `GET /users` against a backend
answering 404 with the JSON body `7` makes axios throw an error carrying that
response; line 346 runs `res.status(404).send(7)` inside the `catch` block, the
legacy status form sets the status code to 7, writing the head throws
`Invalid status code: 7`, and no `try` encloses it: one upstream request was
issued and nothing is written, so this error is mapped to no status and no body.
A 200 answer with the body `7`, returned normally, throws inside the `try` and is
answered 500. -/
theorem catch_all_error_with_body_7_unanswered :
    (server (worldRejecting invalidBodyError) (mkRequest "GET" "/users" [] [])).calls.length
      = 1 ∧
    (server (worldRejecting invalidBodyError) (mkRequest "GET" "/users" [] [])).res.sent
      = none ∧
    (catchAllCatch Res.init invalidBodyError).sent = none ∧
    (server (worldResolving invalidBodyOk) (mkRequest "GET" "/users" [] [])).res.sent
      = some (Sent.json (JsVal.obj
          [("error", JsVal.str "Internal proxy error"),
           ("message", JsVal.str "Invalid status code: 7")])) ∧
    (server (worldResolving invalidBodyOk)
      (mkRequest "GET" "/users" [] [])).res.statusCode = 500 :=
  ⟨rfl, rfl, rfl, rfl, rfl⟩

/-! ## `/proxy/*`: the forwarded parameters -/

/-- On `/proxy/*` with a query of distinct keys: every inbound parameter other
than `url` reaches the backend unchanged, and `url` is the wildcard remainder
exactly when the query has no `url` of its own. -/
theorem proxy_params_forwarded (w : World) (req : Request)
    (hnd : (req.query.map Prod.fst).Nodup) :
    ∃ o : Obj, (proxyConfig w req).params = JsVal.obj o ∧
      (∀ k, k ≠ "url" → Obj.get o k = req.query.get k) ∧
      ("url" ∉ req.query.map Prod.fst → Obj.get o "url" = req.param0) ∧
      ("url" ∈ req.query.map Prod.fst → Obj.get o "url" = req.query.get "url") := by
  refine ⟨_, rfl, ?_, ?_, ?_⟩
  · intro k hk
    rw [Obj.get_spread _ _ _ hnd]
    by_cases hm : k ∈ req.query.map Prod.fst
    · rw [if_pos hm]
    · have hk' : ¬ "url" = k := fun e => hk e.symm
      rw [if_neg hm, Obj.get_of_not_mem _ _ hm, Obj.get_cons, if_neg hk']
      rfl
  · intro hm
    rw [Obj.get_spread _ _ _ hnd, if_neg hm, Obj.get_cons, if_pos rfl]
  · intro hm
    rw [Obj.get_spread _ _ _ hnd, if_pos hm]

/-- C8 fails on the code. For `GET /proxy/a.mp4?url=b.mp4&quality=hd` the wildcard
remainder is `a.mp4`, but the `url` sent to the backend is `b.mp4`: in
`{ url: targetUrl, ...queryParams }` the spread comes after `url`, so an inbound
`url` overrides the remainder. -/
theorem proxy_url_overridden_by_query :
    dispatch (mkRequest "GET" "/proxy/a.mp4"
        [("url", JsVal.str "b.mp4"), ("quality", JsVal.str "hd")] [])
      = some (HandlerId.proxy, ["a.mp4"]) ∧
    (server (worldResolving playlistOk)
      (mkRequest "GET" "/proxy/a.mp4"
        [("url", JsVal.str "b.mp4"), ("quality", JsVal.str "hd")] [])).calls.map
        (fun c => c.params)
      = [JsVal.obj [("url", JsVal.str "b.mp4"), ("quality", JsVal.str "hd")]] :=
  ⟨by decide, rfl⟩

/-! ## Route priority -/

/-- C9: with the routes tried in declaration order, a GET request to `/health` is
dispatched to the health handler, which answers with the status payload and
issues no upstream request; the catch-all is not reached, although its pattern
`/*` matches `/health` too. -/
theorem health_wins_over_catch_all (w : World) (req : Request)
    (hm : req.method = "GET") (hp : req.path = "/health") :
    dispatch req = some (HandlerId.health, []) ∧
    server w req = healthHandler w { req with params := [] } ∧
    (server w req).calls = [] ∧
    (server w req).res = Res.init.json (JsVal.obj
      [("status", JsVal.str "healthy"),
       ("timestamp", JsVal.str w.now),
       ("denoBackend", JsVal.str w.DENO_BACKEND_URL)]) ∧
    matchPath "/*" req.path = some ["health"] := by
  have hd : dispatch req = some (HandlerId.health, []) := by
    have hmatch : matchPath "/health" "/health" = some [] := by decide
    simp [dispatch, routes, dispatchIn, Route.matches, Verb.handles, hm, hp, hmatch]
  refine ⟨hd, ?_, ?_, ?_, ?_⟩
  · simp [server, hd, runHandler]
  · simp [server, hd, runHandler, healthHandler]
  · simp [server, hd, runHandler, healthHandler]
  · rw [hp]
    decide

/-- C9 at a concrete GET `/health` request. -/
theorem health_wins_over_catch_all_witness :
    dispatch (mkRequest "GET" "/health" [] []) = some (HandlerId.health, []) ∧
    (server (worldResolving playlistOk) (mkRequest "GET" "/health" [] [])).calls = [] :=
  ⟨(health_wins_over_catch_all (worldResolving playlistOk)
      (mkRequest "GET" "/health" [] []) rfl rfl).1,
   (health_wins_over_catch_all (worldResolving playlistOk)
      (mkRequest "GET" "/health" [] []) rfl rfl).2.2.1⟩

end TestRedirect
